import Mathlib

/-!
Shallow embedding of the photovault backend's cache-aside layer, visibility
policy, storage-service validation and album/photo request flows, with
theorems checking the specification's claims against it.

Sources embedded:
- src/core/models.py        (CustomUser, role choices)
- src/core/permissions.py   (IsOwnerOrAdmin.has_object_permission)
- src/photos/models.py      (Photo, visibility default)
- src/albums/models.py      (Album.get_visible_photos, AlbumPhoto)
- src/core/services/storage.py (S3StorageService.validate_file / upload)
- src/photos/views.py       (PhotoViewSet: retrieve, update, destroy,
                             flag_inappropriate, cache invalidation helpers)
- src/albums/views.py       (AlbumViewSet: add_photo, remove_photo,
                             cache invalidation helpers)
-/

namespace PhotoVault

/-! ## Data model (src/core/models.py, src/photos/models.py) -/

/-- `CustomUser` from src/core/models.py: role is a string with choices
`user` / `admin` (default `user`). -/
structure CustomUser where
  id : Nat
  username : String
  role : String
  deriving DecidableEq, Repr

/-- A request actor: either Django's anonymous user (`is_authenticated` false)
or an authenticated `CustomUser`. -/
inductive Actor where
  | anon : Actor
  | auth : CustomUser → Actor
  deriving DecidableEq, Repr

/-- `request.user.is_authenticated`. -/
def Actor.is_authenticated : Actor → Bool
  | .anon => false
  | .auth _ => true

/-- `Photo` from src/photos/models.py: visibility is a string with choices
`public` / `private`; `owner` is a foreign key, embedded as the owner's id. -/
structure Photo where
  id : Nat
  title : String
  description : String
  visibility : String
  image_url : String
  owner : Nat
  deriving DecidableEq, Repr

/-- The `default="public"` of `Photo.visibility` in src/photos/models.py. -/
def Photo.visibility_default : String := "public"

/-- Creating a `Photo` row: a visibility value that is not supplied takes the
model field's default (src/photos/models.py, `visibility` field). -/
def Photo.create (pid : Nat) (title description : String)
    (visibility : Option String) (image_url : String) (owner : Nat) : Photo :=
  ⟨pid, title, description, visibility.getD Photo.visibility_default,
    image_url, owner⟩

/-! ## Visibility / access policy (src/core/permissions.py) -/

/-- `IsOwnerOrAdmin.has_object_permission` from src/core/permissions.py.
`method_safe` is `request.method in SAFE_METHODS`.
The Python code:
- admins (authenticated, role admin) pass unconditionally;
- safe methods: public photos pass for anyone; private photos pass only for
  the authenticated owner; any other visibility string falls through;
- otherwise (writes, and the fall-through) only the authenticated owner. -/
def has_object_permission (method_safe : Bool) (actor : Actor) (obj : Photo) :
    Bool :=
  match actor with
  | .auth u =>
    if u.role == "admin" then true
    else if method_safe && obj.visibility == "public" then true
    else if method_safe && obj.visibility == "private" then obj.owner == u.id
    else obj.owner == u.id
  | .anon =>
    if method_safe && obj.visibility == "public" then true
    else false

/-- The spec's `can_read(actor, entity)`: the object permission check for a
safe (read) method. -/
def can_read (actor : Actor) (obj : Photo) : Bool :=
  has_object_permission true actor obj

/-- The spec's `can_write(actor, entity)`: the object permission check for a
non-safe (write) method. -/
def can_write (actor : Actor) (obj : Photo) : Bool :=
  has_object_permission false actor obj

/-- `PhotoViewSet.get_queryset` from src/photos/views.py, as the predicate a
photo must satisfy to be in the requesting actor's queryset: admins see all,
authenticated users see `public ∨ own`, anonymous users see `public`. -/
def photo_in_queryset (actor : Actor) (p : Photo) : Bool :=
  match actor with
  | .auth u =>
    if u.role == "admin" then true
    else p.visibility == "public" || p.owner == u.id
  | .anon => p.visibility == "public"

/-! ## Albums (src/albums/models.py) -/

/-- `Album` from src/albums/models.py; the many-to-many `photos` set is
embedded as the list of member photos (one `AlbumPhoto` link row each, in
`added_at` order). -/
structure Album where
  id : Nat
  title : String
  description : String
  owner : Nat
  photos : List Photo
  deriving DecidableEq, Repr

/-- `Album.get_visible_photos` from src/albums/models.py:
all photos when the requesting user is the authenticated album owner,
otherwise only the photos whose own visibility is `public`. -/
def Album.get_visible_photos (alb : Album) (actor : Actor) : List Photo :=
  match actor with
  | .auth u =>
    if alb.owner == u.id then alb.photos
    else alb.photos.filter (fun p => p.visibility == "public")
  | .anon => alb.photos.filter (fun p => p.visibility == "public")

/-! ## Cache backend (django.core.cache, as consumed by the views)

The views only use `cache.get`, `cache.set(key, value, timeout)` and
`cache.delete`. The cache is embedded as an association list from string keys
to values; TTLs do not matter to the claims settled here and are dropped. -/

/-- A cache state: association list from keys to cached payloads. -/
abbrev Cache (α : Type) : Type := List (String × α)

/-- `cache.get(key)`. -/
def cacheGet {α : Type} (c : Cache α) (k : String) : Option α :=
  (List.find? (fun e => e.1 == k) c).map (fun e => e.2)

/-- `cache.set(key, value, timeout)` (timeout dropped). -/
def cacheSet {α : Type} (c : Cache α) (k : String) (v : α) : Cache α :=
  (k, v) :: List.filter (fun e => e.1 != k) c

/-- `cache.delete(key)`. -/
def cacheDelete {α : Type} (c : Cache α) (k : String) : Cache α :=
  List.filter (fun e => e.1 != k) c

/-- A sequence of `cache.delete` calls, one per key, in order. -/
def cacheDeleteMany {α : Type} (c : Cache α) (ks : List String) : Cache α :=
  ks.foldl cacheDelete c

/-! ## Cache key derivation (string literals of the views) -/

/-- `f'photos_list_user_{user.id}_page_{page}'` (src/photos/views.py, list). -/
def photos_list_user_key (uid page : Nat) : String :=
  s!"photos_list_user_{uid}_page_{page}"

/-- `f'photos_list_anon_page_{page}'` (src/photos/views.py, list). -/
def photos_list_anon_key (page : Nat) : String :=
  s!"photos_list_anon_page_{page}"

/-- `f'photo_detail_{photo_id}'` (src/photos/views.py, retrieve). Note the key
is derived from the photo id alone; the requesting actor does not appear. -/
def photo_detail_key (pid : Nat) : String :=
  s!"photo_detail_{pid}"

/-- `f'my_photos_user_{request.user.id}'` (src/photos/views.py, my_photos). -/
def my_photos_key (uid : Nat) : String :=
  s!"my_photos_user_{uid}"

/-- `'public_photos'` (src/photos/views.py, public). -/
def public_photos_key : String := "public_photos"

/-- `f'albums_list_user_{user.id}_page_{page}'` (src/albums/views.py, list). -/
def albums_list_user_key (uid page : Nat) : String :=
  s!"albums_list_user_{uid}_page_{page}"

/-- `f'album_detail_{album_id}_user_{user_id}'` (src/albums/views.py,
retrieve). -/
def album_detail_key (aid uid : Nat) : String :=
  s!"album_detail_{aid}_user_{uid}"

/-- `f'album_{album.id}_photos_user_{user.id}'` (src/albums/views.py,
photos action). -/
def album_photos_key (aid uid : Nat) : String :=
  s!"album_{aid}_photos_user_{uid}"

/-- `f'my_albums_user_{request.user.id}'` (src/albums/views.py, my_albums). -/
def my_albums_key (uid : Nat) : String :=
  s!"my_albums_user_{uid}"

/-- The cache key derived by `PhotoViewSet.retrieve` for a single-photo detail
read. The handler receives the requesting actor but the key uses only
`kwargs.get('pk')`. -/
def retrieve_cache_key (_actor : Actor) (pid : Nat) : String :=
  photo_detail_key pid

/-! ## Cache invalidation helpers (src/photos/views.py, src/albums/views.py)

`PhotoViewSet._invalidate_photo_caches(user, photo_id)` deletes, in order:
for `page in range(1, 11)` the acting user's list page and the anonymous list
page; then (when a photo id was passed) the photo detail key; then the acting
user's `my_photos` key and `public_photos`. The loop bound 1..10 is the Python
`range(1, 11)`, embedded as `List.range' 1 10`. -/

/-- The keys deleted by `PhotoViewSet._invalidate_photo_caches(user, photo_id)`
in deletion order. -/
def invalidate_photo_caches_keys (uid : Nat) (photo_id : Option Nat) :
    List String :=
  ((List.range' 1 10).flatMap
      (fun page => [photos_list_user_key uid page, photos_list_anon_key page]))
    ++ (match photo_id with
        | some pid => [photo_detail_key pid]
        | none => [])
    ++ [my_photos_key uid, public_photos_key]

/-- `PhotoViewSet._invalidate_photo_caches` as a cache transformer. -/
def invalidate_photo_caches {α : Type} (c : Cache α) (uid : Nat)
    (photo_id : Option Nat) : Cache α :=
  cacheDeleteMany c (invalidate_photo_caches_keys uid photo_id)

/-- The keys deleted by `PhotoViewSet._invalidate_all_caches` in deletion
order: `public_photos`, then the anonymous list pages 1..10 — and nothing
else. -/
def invalidate_all_caches_keys : List String :=
  public_photos_key :: (List.range' 1 10).map photos_list_anon_key

/-- `PhotoViewSet._invalidate_all_caches` as a cache transformer. -/
def invalidate_all_caches {α : Type} (c : Cache α) : Cache α :=
  cacheDeleteMany c invalidate_all_caches_keys

/-- The keys deleted by `AlbumViewSet._invalidate_album_caches(user, album_id)`
in deletion order. -/
def invalidate_album_caches_keys (uid : Nat) (album_id : Option Nat) :
    List String :=
  ((List.range' 1 10).map (fun page => albums_list_user_key uid page))
    ++ (match album_id with
        | some aid => [album_detail_key aid uid, album_photos_key aid uid]
        | none => [])
    ++ [my_albums_key uid]

/-- `AlbumViewSet._invalidate_album_caches` as a cache transformer. -/
def invalidate_album_caches {α : Type} (c : Cache α) (uid : Nat)
    (album_id : Option Nat) : Cache α :=
  cacheDeleteMany c (invalidate_album_caches_keys uid album_id)

/-- `AlbumViewSet._invalidate_all_album_caches` is a `pass` body: a no-op on
the cache. -/
def invalidate_all_album_caches {α : Type} (c : Cache α) : Cache α := c

/-! ## Basic cache lemmas -/

theorem cacheGet_cacheDelete_self {α : Type} (c : Cache α) (k : String) :
    cacheGet (cacheDelete c k) k = none := by
  unfold cacheGet cacheDelete
  induction c with
  | nil => rfl
  | cons e rest ih =>
    by_cases h : e.1 = k
    · have hne : (e.1 != k) = false := by simp [bne, h]
      simp only [List.filter]
      rw [hne]
      exact ih
    · simp only [List.filter]
      have hne : (e.1 != k) = true := by simp [bne, h]
      rw [hne]
      simp only [List.find?]
      have : (e.1 == k) = false := by simp [h]
      rw [this]
      exact ih

theorem cacheGet_cacheDelete_ne {α : Type} (c : Cache α) (k k' : String)
    (h : k' ≠ k) : cacheGet (cacheDelete c k) k' = cacheGet c k' := by
  unfold cacheGet cacheDelete
  induction c with
  | nil => rfl
  | cons e rest ih =>
    by_cases he : e.1 = k
    · have hne : (e.1 != k) = false := by simp [bne, he]
      have hfind : (e.1 == k') = false := by
        subst he; simp [Ne.symm h]
      simp only [List.filter]
      rw [hne]
      simp only [List.find?]
      rw [hfind]
      exact ih
    · have hne : (e.1 != k) = true := by simp [bne, he]
      simp only [List.filter]
      rw [hne]
      by_cases hk' : e.1 = k'
      · simp only [List.find?]
        have : (e.1 == k') = true := by simp [hk']
        rw [this]
      · simp only [List.find?]
        have : (e.1 == k') = false := by simp [hk']
        rw [this]
        exact ih

/-- Once a key is absent it stays absent under further deletions. -/
theorem cacheGet_cacheDelete_none {α : Type} (c : Cache α) (k k' : String)
    (h : cacheGet c k' = none) : cacheGet (cacheDelete c k) k' = none := by
  by_cases hk : k' = k
  · subst hk; exact cacheGet_cacheDelete_self c k'
  · rw [cacheGet_cacheDelete_ne c k k' hk]; exact h

theorem cacheGet_cacheDeleteMany_none {α : Type} (c : Cache α)
    (ks : List String) (k : String) (h : cacheGet c k = none) :
    cacheGet (cacheDeleteMany c ks) k = none := by
  induction ks generalizing c with
  | nil => exact h
  | cons k0 rest ih =>
    exact ih (cacheDelete c k0) (cacheGet_cacheDelete_none c k0 k h)

/-- A key that occurs anywhere in the deletion sequence is absent afterwards. -/
theorem cacheGet_cacheDeleteMany_of_mem {α : Type} (c : Cache α)
    (ks : List String) (k : String) (h : k ∈ ks) :
    cacheGet (cacheDeleteMany c ks) k = none := by
  induction ks generalizing c with
  | nil => cases h
  | cons k0 rest ih =>
    cases h with
    | head =>
      exact cacheGet_cacheDeleteMany_none (cacheDelete c k) rest k
        (cacheGet_cacheDelete_self c k)
    | tail _ hmem => exact ih (cacheDelete c k0) hmem

/-- A key not in the deletion sequence keeps its cached value. -/
theorem cacheGet_cacheDeleteMany_of_not_mem {α : Type} (c : Cache α)
    (ks : List String) (k : String) (h : k ∉ ks) :
    cacheGet (cacheDeleteMany c ks) k = cacheGet c k := by
  induction ks generalizing c with
  | nil => rfl
  | cons k0 rest ih =>
    have h0 : k ≠ k0 := fun he => h (he ▸ List.mem_cons_self k0 rest)
    have hr : k ∉ rest := fun hm => h (List.mem_cons_of_mem k0 hm)
    calc cacheGet (cacheDeleteMany (cacheDelete c k0) rest) k
        = cacheGet (cacheDelete c k0) k := ih (cacheDelete c k0) hr
      _ = cacheGet c k := cacheGet_cacheDelete_ne c k0 k h0

/-! ## Object store client (src/core/services/storage.py) -/

/-- Settings consumed by `S3StorageService.validate_file`. -/
structure StorageSettings where
  MAX_UPLOAD_SIZE : Nat
  ALLOWED_IMAGE_TYPES : List String
  ALLOWED_IMAGE_EXTENSIONS : List String

/-- A Django `UploadedFile` as the storage service reads it: `size`, the raw
content bytes (`file.read`), the client-supplied `name` and declared
`content_type`. -/
structure UploadedFile where
  size : Nat
  content : List Nat
  name : String
  content_type : String

/-- The reason carried by the `StorageException` each of the three validation
checks raises, tagged with the offending value the message reports. -/
inductive ValidationError where
  | sizeExceeded : ValidationError
  | invalidType : String → ValidationError
  | invalidExtension : String → ValidationError
  deriving DecidableEq, Repr

/-- `os.path.splitext(file.name)[1][1:].lower()`: the text after the last dot
of the name, lowercased; empty when the name has no dot. Computed over the
character list so it reduces in the kernel. (The leading-dot basename special
case of `splitext` is not modelled; no claim exercises it.) -/
def splitext_ext (name : String) : String :=
  let cs := name.toList
  if cs.contains '.' then
    String.mk (((cs.reverse.takeWhile (fun c => c != '.')).reverse).map
      Char.toLower)
  else ""

/-- `S3StorageService.validate_file`. `magic` embeds the external
`magic.from_buffer(..., mime=True)` call: a function of the first 2048 content
bytes only. The three checks run in source order — size, then content MIME
type, then filename extension — and the first failure raises. -/
def validate_file (st : StorageSettings) (magic : List Nat → String)
    (file : UploadedFile) : Except ValidationError Unit :=
  if file.size > st.MAX_UPLOAD_SIZE then
    .error .sizeExceeded
  else
    let mime := magic (file.content.take 2048)
    if !(st.ALLOWED_IMAGE_TYPES.contains mime) then
      .error (.invalidType mime)
    else
      let ext := splitext_ext file.name
      if !(st.ALLOWED_IMAGE_EXTENSIONS.contains ext) then
        .error (.invalidExtension ext)
      else
        .ok ()

/-- `S3StorageService.generate_unique_filename`: `uuid.uuid4().hex` (passed in
as `uuidHex` — external randomness) concatenated with the original
extension, dot included. -/
def generate_unique_filename (uuidHex : String) (original_filename : String) :
    String :=
  let cs := original_filename.toList
  let ext :=
    if cs.contains '.' then
      String.mk ('.' :: (cs.reverse.takeWhile (fun c => c != '.')).reverse)
    else ""
  uuidHex ++ ext

/-- The network calls `upload` issues against the S3 backend. -/
inductive S3Effect where
  | upload_fileobj : (bucket : String) → (file_path : String) →
      (content_type : String) → S3Effect
  deriving DecidableEq, Repr

/-- `S3StorageService.upload`: validate first; only on success build the
unique path and transmit (`upload_fileobj`), then return the public URL.
The result is paired with the trace of S3 calls actually issued. -/
def upload (st : StorageSettings) (magic : List Nat → String)
    (bucket domain uuidHex : String) (file : UploadedFile) (filename : String)
    (folder : Option String) : Except ValidationError String × List S3Effect :=
  match validate_file st magic file with
  | .error e => (.error e, [])
  | .ok _ =>
    let unique_filename := generate_unique_filename uuidHex filename
    let file_path :=
      match folder with
      | some f => s!"{f}/{unique_filename}"
      | none => unique_filename
    (.ok s!"https://{domain}/{file_path}",
      [.upload_fileobj bucket file_path file.content_type])

/-! ## Request flows (src/photos/views.py, src/albums/views.py) -/

/-- The fields serialized by `PhotoSerializer` (src/photos/serializers.py),
minus the timestamp. -/
structure PhotoData where
  id : Nat
  title : String
  description : String
  visibility : String
  image_url : String
  owner : Nat
  deriving DecidableEq, Repr

/-- `PhotoSerializer(instance).data`. -/
def photo_serialize (p : Photo) : PhotoData :=
  ⟨p.id, p.title, p.description, p.visibility, p.image_url, p.owner⟩

/-- A value stored in the photo caches: a detail payload or a list payload. -/
inductive CacheVal where
  | detail : PhotoData → CacheVal
  | listing : List PhotoData → CacheVal
  deriving DecidableEq, Repr

/-- DRF `get_object` on `PhotoViewSet`: look the pk up inside
`get_queryset()`'s result, then run `check_object_permissions`
(`IsOwnerOrAdmin.has_object_permission`). `none` covers both the 404 (not in
the queryset) and the 403 (permission denied) outcomes. -/
def photo_get_object (db : List Photo) (method_safe : Bool) (actor : Actor)
    (pid : Nat) : Option Photo :=
  (db.find? (fun p => p.id == pid)).bind (fun p =>
    if photo_in_queryset actor p && has_object_permission method_safe actor p
    then some p else none)

/-- `IsAdmin.has_permission` / `has_object_permission`
(src/core/permissions.py). -/
def IsAdmin_permission (actor : Actor) : Bool :=
  match actor with
  | .auth u => u.role == "admin"
  | .anon => false

/-- An HTTP response of the read path: status plus optional body payload. -/
structure RetrieveResponse where
  status : Nat
  body : Option CacheVal
  deriving DecidableEq, Repr

/-- `PhotoViewSet.retrieve`: derive the cache key from the pk alone, serve a
cache hit immediately (before `get_object` and hence before any permission
check); on a miss, fetch, serialize, cache (TTL choice dropped) and return.
Returns the response together with the updated cache. -/
def PhotoViewSet.retrieve (db : List Photo) (c : Cache CacheVal)
    (actor : Actor) (pid : Nat) : RetrieveResponse × Cache CacheVal :=
  let cache_key := photo_detail_key pid
  match cacheGet c cache_key with
  | some cached_data => (⟨200, some cached_data⟩, c)
  | none =>
    match photo_get_object db true actor pid with
    | none => (⟨404, none⟩, c)
    | some inst =>
      let response_data := CacheVal.detail (photo_serialize inst)
      (⟨200, some response_data⟩, cacheSet c cache_key response_data)

/-- An HTTP response of a mutating path: status plus the optional `warning`
field some branches attach. -/
structure MutationResponse where
  status : Nat
  warning : Option String
  deriving DecidableEq, Repr

/-- `PhotoViewSet.create` (upload path): on storage success, save the photo
(visibility defaulting per the model) and invalidate via
`_invalidate_photo_caches(request.user)` (no photo id) before responding 201;
on a `StorageException` from `upload`, respond 400 with nothing mutated. -/
def PhotoViewSet.create (db : List Photo) (c : Cache CacheVal)
    (u : CustomUser) (upload_ok : Bool) (pid : Nat)
    (title description : String) (visibility : Option String)
    (image_url : String) : MutationResponse × List Photo × Cache CacheVal :=
  if upload_ok then
    let photo := Photo.create pid title description visibility image_url u.id
    (⟨201, none⟩, db ++ [photo], invalidate_photo_caches c u.id none)
  else
    (⟨400, none⟩, db, c)

/-- `PhotoViewSet.update` (metadata-only branch, no replacement file): apply
the serializer's new field values, then
`_invalidate_photo_caches(request.user, photo.id)` — keyed on the *acting*
user — before responding 200. -/
def PhotoViewSet.update (db : List Photo) (c : Cache CacheVal)
    (u : CustomUser) (pid : Nat)
    (new_title new_description new_visibility : String) :
    MutationResponse × List Photo × Cache CacheVal :=
  match photo_get_object db false (.auth u) pid with
  | none => (⟨404, none⟩, db, c)
  | some photo =>
    let photo' := { photo with
      title := new_title
      description := new_description
      visibility := new_visibility }
    let db' := db.map (fun p => if p.id == pid then photo' else p)
    (⟨200, none⟩, db', invalidate_photo_caches c u.id (some photo.id))

/-- `PhotoViewSet.destroy`: try the S3 delete; whether it succeeds or raises a
`StorageException`, the record is deleted and
`_invalidate_photo_caches(request.user, photo_id)` runs before the response —
204 on storage success, 200 with an `S3 deletion failed` warning otherwise. -/
def PhotoViewSet.destroy (db : List Photo) (c : Cache CacheVal)
    (u : CustomUser) (pid : Nat) (storage_delete_ok : Bool) :
    MutationResponse × List Photo × Cache CacheVal :=
  match photo_get_object db false (.auth u) pid with
  | none => (⟨404, none⟩, db, c)
  | some photo =>
    let db' := db.filter (fun p => p.id != photo.id)
    let c' := invalidate_photo_caches c u.id (some photo.id)
    if storage_delete_ok then
      (⟨204, none⟩, db', c')
    else
      (⟨200, some "S3 deletion failed"⟩, db', c')

/-- `PhotoViewSet.flag_inappropriate` (admin force-delete): guarded by
`IsAdmin`; the target is looked up through the admin's queryset. Whether the
S3 delete succeeds or raises a `StorageException`, `photo.delete()` runs and
`_invalidate_all_caches()` is called before the 200 response (with the warning
attached on storage failure). -/
def PhotoViewSet.flag_inappropriate (db : List Photo) (c : Cache CacheVal)
    (actor : Actor) (pid : Nat) (storage_delete_ok : Bool) :
    MutationResponse × List Photo × Cache CacheVal :=
  if !(IsAdmin_permission actor) then (⟨403, none⟩, db, c)
  else
    match (db.find? (fun p => p.id == pid)).bind (fun p =>
        if photo_in_queryset actor p then some p else none) with
    | none => (⟨404, none⟩, db, c)
    | some photo =>
      let db' := db.filter (fun p => p.id != photo.id)
      let c' := invalidate_all_caches c
      if storage_delete_ok then
        (⟨200, none⟩, db', c')
      else
        (⟨200, some "S3 deletion failed"⟩, db', c')

/-! ## Album membership flows (src/albums/views.py) -/

/-- `AlbumViewSet.get_queryset`: admins see every album, everyone else only
their own. -/
def album_in_queryset (u : CustomUser) (a : Album) : Bool :=
  if u.role == "admin" then true else a.owner == u.id

/-- `IsAlbumOwner.has_object_permission` (src/albums/permissions.py). -/
def IsAlbumOwner_object (u : CustomUser) (a : Album) : Bool :=
  if u.role == "admin" then true else a.owner == u.id

/-- DRF `get_object` on `AlbumViewSet`: pk lookup inside the queryset plus the
`IsAlbumOwner` object check. Album endpoints require authentication
(`IsAlbumOwner.has_permission`), so the actor is a `CustomUser`. -/
def album_get_object (albums : List Album) (u : CustomUser) (aid : Nat) :
    Option Album :=
  (albums.find? (fun a => a.id == aid)).bind (fun a =>
    if album_in_queryset u a && IsAlbumOwner_object u a then some a else none)

/-- The distinct outcomes of `add_photo` / `remove_photo`. -/
inductive AlbumActionResult where
  | ok : (album_id : Nat) → (photo_id : Nat) → AlbumActionResult
  | already_in_album : AlbumActionResult
  | not_in_album : AlbumActionResult
  | photo_not_found : AlbumActionResult
  | not_your_photo : AlbumActionResult
  | album_not_found : AlbumActionResult
  deriving DecidableEq, Repr

/-- `AlbumViewSet.add_photo`: after the album lookup, the serializer checks
the photo exists and is owned by the acting user; then the view rejects with
`Photo is already in this album` when a link exists, else `album.photos.add`
creates one link row and `_invalidate_album_caches(request.user, album.id)`
runs before the success response. -/
def AlbumViewSet.add_photo (albums : List Album) (photosDb : List Photo)
    (c : Cache CacheVal) (u : CustomUser) (aid pid : Nat) :
    AlbumActionResult × List Album × Cache CacheVal :=
  match album_get_object albums u aid with
  | none => (.album_not_found, albums, c)
  | some album =>
    match photosDb.find? (fun p => p.id == pid) with
    | none => (.photo_not_found, albums, c)
    | some photo =>
      if photo.owner != u.id then (.not_your_photo, albums, c)
      else if album.photos.any (fun p => p.id == pid) then
        (.already_in_album, albums, c)
      else
        let album' := { album with photos := album.photos ++ [photo] }
        let albums' := albums.map (fun a => if a.id == aid then album' else a)
        (.ok album.id photo.id, albums',
          invalidate_album_caches c u.id (some album.id))

/-- `AlbumViewSet.remove_photo`: the serializer checks the photo exists; the
view rejects with `Photo is not in this album` when no link exists, else
`album.photos.remove` drops the link row and
`_invalidate_album_caches(request.user, album.id)` runs before the success
response. -/
def AlbumViewSet.remove_photo (albums : List Album) (photosDb : List Photo)
    (c : Cache CacheVal) (u : CustomUser) (aid pid : Nat) :
    AlbumActionResult × List Album × Cache CacheVal :=
  match album_get_object albums u aid with
  | none => (.album_not_found, albums, c)
  | some album =>
    match photosDb.find? (fun p => p.id == pid) with
    | none => (.photo_not_found, albums, c)
    | some photo =>
      if !(album.photos.any (fun p => p.id == pid)) then
        (.not_in_album, albums, c)
      else
        let album' :=
          { album with photos := album.photos.filter (fun p => p.id != pid) }
        let albums' := albums.map (fun a => if a.id == aid then album' else a)
        (.ok album.id photo.id, albums',
          invalidate_album_caches c u.id (some album.id))

/-! ## Concrete fixtures used by witnesses and counterexamples -/

/-- A regular (non-admin) user who owns the fixture photos and album. -/
def alice : CustomUser := ⟨1, "alice", "user"⟩

/-- A second regular user, distinct from `alice`. -/
def bob : CustomUser := ⟨2, "bob", "user"⟩

/-- An admin user. -/
def adminUser : CustomUser := ⟨3, "root", "admin"⟩

/-- A private photo owned by `alice`. -/
def privatePhoto : Photo := ⟨1, "sunset", "", "private", "https://cdn/x.jpg", 1⟩

/-- A public photo owned by `alice`. -/
def publicPhoto : Photo := ⟨2, "beach", "", "public", "https://cdn/y.jpg", 1⟩

/-- An album owned by `alice` containing her private photo. -/
def alicesAlbum : Album := ⟨1, "holiday", "", 1, [privatePhoto]⟩

/-! ## Claim theorems -/

/-- C4: for a private photo owned by A, `can_read` is false for the anonymous
actor and for any authenticated non-admin user B distinct from A, true for A
and for any actor with role admin; for a public photo, `can_read` is true for
every actor. -/
theorem claim_C4_read_policy (A B : CustomUser) (P Q : Photo)
    (hP : P.visibility = "private") (hA : P.owner = A.id)
    (hBrole : B.role ≠ "admin") (hBA : B.id ≠ A.id)
    (hQ : Q.visibility = "public") :
    can_read Actor.anon P = false ∧
    can_read (Actor.auth B) P = false ∧
    can_read (Actor.auth A) P = true ∧
    (∀ adm : CustomUser, adm.role = "admin" →
      can_read (Actor.auth adm) P = true) ∧
    (∀ a : Actor, can_read a Q = true) := by
  have hBrole' : (B.role == "admin") = false := by
    simp [hBrole]
  have hBA' : (P.owner == B.id) = false := by
    rw [hA]
    exact beq_eq_false_iff_ne.mpr (fun h => hBA h.symm)
  refine ⟨?_, ?_, ?_, ?_, ?_⟩
  · simp [can_read, has_object_permission, Actor.is_authenticated, hP]
  · simp [can_read, has_object_permission, hP, hBrole', hBA']
  · simp [can_read, has_object_permission, hP, hA]
  · intro adm hadm
    simp [can_read, has_object_permission, hadm]
  · intro a
    cases a with
    | anon => simp [can_read, has_object_permission, hQ]
    | auth u => simp [can_read, has_object_permission, hQ]

/-- Witness for C4 at concrete users and photos. -/
theorem claim_C4_read_policy_witness :
    can_read Actor.anon privatePhoto = false ∧
    can_read (Actor.auth bob) privatePhoto = false ∧
    can_read (Actor.auth alice) privatePhoto = true ∧
    (∀ adm : CustomUser, adm.role = "admin" →
      can_read (Actor.auth adm) privatePhoto = true) ∧
    (∀ a : Actor, can_read a publicPhoto = true) :=
  claim_C4_read_policy alice bob privatePhoto publicPhoto
    (by decide) (by decide) (by decide) (by decide) (by decide)

/-- C10: a photo created without an explicit visibility value defaults to
`public` (src/photos/models.py) and is therefore readable by every actor,
anonymous ones included. -/
theorem claim_C10_default_visibility_public (pid : Nat)
    (title description image_url : String) (owner : Nat) :
    (Photo.create pid title description none image_url owner).visibility
        = "public" ∧
    ∀ a : Actor,
      can_read a (Photo.create pid title description none image_url owner)
        = true := by
  constructor
  · rfl
  · intro a
    cases a with
    | anon =>
      simp [can_read, has_object_permission, Photo.create,
        Photo.visibility_default]
    | auth u =>
      simp [can_read, has_object_permission, Photo.create,
        Photo.visibility_default]

/-- Fixture settings: 100-byte limit, jpeg-only. -/
def stFix : StorageSettings := ⟨100, ["image/jpeg"], ["jpg"]⟩

/-- A content sniffer whose answer is always the allowed type. -/
def magicJpeg : List Nat → String := fun _ => "image/jpeg"

/-- A content sniffer whose answer is always a disallowed type. -/
def magicPng : List Nat → String := fun _ => "image/png"

/-- An oversized file. -/
def bigFile : UploadedFile := ⟨200, [1], "a.jpg", "image/jpeg"⟩

/-- A small file with an allowed extension and declared type, whose content
signature maps to a disallowed type under `magicPng`. -/
def spoofedFile : UploadedFile := ⟨50, [77], "a.jpg", "image/jpeg"⟩

/-- A small valid-content file with a disallowed extension. -/
def badExtFile : UploadedFile := ⟨50, [1], "a.gif", "image/jpeg"⟩

/-- C6: an oversized file fails `validate` with the size error and `upload`
issues no S3 call at all; and among the three checks the first failing one in
the order size, MIME type, extension determines the reported reason. -/
theorem claim_C6_validation_order (st : StorageSettings)
    (magic : List Nat → String) (bucket domain uuidHex filename : String)
    (folder : Option String) (file : UploadedFile) :
    (file.size > st.MAX_UPLOAD_SIZE →
      validate_file st magic file = .error .sizeExceeded ∧
      upload st magic bucket domain uuidHex file filename folder
        = (.error .sizeExceeded, [])) ∧
    (file.size ≤ st.MAX_UPLOAD_SIZE →
      st.ALLOWED_IMAGE_TYPES.contains (magic (file.content.take 2048))
          = false →
      validate_file st magic file
        = .error (.invalidType (magic (file.content.take 2048)))) ∧
    (file.size ≤ st.MAX_UPLOAD_SIZE →
      st.ALLOWED_IMAGE_TYPES.contains (magic (file.content.take 2048))
          = true →
      st.ALLOWED_IMAGE_EXTENSIONS.contains (splitext_ext file.name)
          = false →
      validate_file st magic file
        = .error (.invalidExtension (splitext_ext file.name))) := by
  refine ⟨?_, ?_, ?_⟩
  · intro h
    have hv : validate_file st magic file = .error .sizeExceeded := by
      unfold validate_file
      rw [if_pos h]
    refine ⟨hv, ?_⟩
    unfold upload
    rw [hv]
  · intro hsz hmime
    simp only [validate_file]
    rw [if_neg (Nat.not_lt.mpr hsz), hmime]
    rfl
  · intro hsz hmime hext
    simp only [validate_file]
    rw [if_neg (Nat.not_lt.mpr hsz), hmime, hext]
    rfl

/-- Witness for C6: the oversized file, the spoofed-content file and the
bad-extension file each fail with the first applicable reason, and the
oversized upload transmits nothing. -/
theorem claim_C6_validation_order_witness :
    validate_file stFix magicJpeg bigFile = .error .sizeExceeded ∧
    upload stFix magicJpeg "bkt" "cdn" "u0" bigFile "a.jpg" none
      = (.error .sizeExceeded, []) ∧
    validate_file stFix magicPng spoofedFile
      = .error (.invalidType "image/png") ∧
    validate_file stFix magicJpeg badExtFile
      = .error (.invalidExtension "gif") := by
  have h := claim_C6_validation_order stFix magicJpeg "bkt" "cdn" "u0" "a.jpg"
    none bigFile
  have h2 := claim_C6_validation_order stFix magicPng "bkt" "cdn" "u0" "a.jpg"
    none spoofedFile
  have h3 := claim_C6_validation_order stFix magicJpeg "bkt" "cdn" "u0" "a.gif"
    none badExtFile
  exact ⟨(h.1 (by decide)).1, (h.1 (by decide)).2,
    h2.2.1 (by decide) (by decide),
    h3.2.2 (by decide) (by decide) (by decide)⟩

/-- C7: a file whose content signature maps to a disallowed MIME type fails
`validate` with the type error even though its size is within the limit and
its filename extension is allowed; and the outcome is unchanged for any file
with the same size and content but a different name and declared type — the
decision reads the content bytes, not the filename or client-declared type. -/
theorem claim_C7_mime_check_reads_content (st : StorageSettings)
    (magic : List Nat → String) (f1 f2 : UploadedFile)
    (hsize : f1.size ≤ st.MAX_UPLOAD_SIZE)
    (hmime : st.ALLOWED_IMAGE_TYPES.contains (magic (f1.content.take 2048))
        = false)
    (hext : st.ALLOWED_IMAGE_EXTENSIONS.contains (splitext_ext f1.name)
        = true)
    (hsame_size : f2.size = f1.size) (hsame_content : f2.content = f1.content) :
    validate_file st magic f1
      = .error (.invalidType (magic (f1.content.take 2048))) ∧
    validate_file st magic f2
      = .error (.invalidType (magic (f1.content.take 2048))) := by
  constructor
  · simp only [validate_file]
    rw [if_neg (Nat.not_lt.mpr hsize), hmime]
    rfl
  · simp only [validate_file]
    rw [hsame_size, hsame_content, if_neg (Nat.not_lt.mpr hsize), hmime]
    rfl

/-- Witness for C7: the spoofed file (allowed `.jpg` extension, declared
`image/jpeg`, sniffed `image/png`) fails on type, as does its renamed twin. -/
theorem claim_C7_mime_check_reads_content_witness :
    validate_file stFix magicPng spoofedFile
      = .error (.invalidType "image/png") ∧
    validate_file stFix magicPng ⟨50, [77], "b.exe", "text/plain"⟩
      = .error (.invalidType "image/png") :=
  claim_C7_mime_check_reads_content stFix magicPng spoofedFile
    ⟨50, [77], "b.exe", "text/plain"⟩
    (by decide) (by decide) (by decide) (by decide) (by decide)

/-- C1 fails on the code: the detail cache key derived by
`PhotoViewSet.retrieve` is `photo_detail_{pk}` for every actor, so the owner
of a private photo and a stranger — whose permitted views of it differ
(`can_read` true versus false) — collide on the same key, and the retrieve
flow serves the stranger the payload cached for the owner: after `alice`
reads her private photo, `bob`'s request for it is answered 200 from cache
with the full private payload. -/
theorem claim_C1_detail_key_collides_across_actors :
    can_read (.auth alice) privatePhoto = true ∧
    can_read (.auth bob) privatePhoto = false ∧
    retrieve_cache_key (.auth alice) privatePhoto.id
      = retrieve_cache_key (.auth bob) privatePhoto.id ∧
    (let r1 := PhotoViewSet.retrieve [privatePhoto] [] (.auth alice) 1
     PhotoViewSet.retrieve [privatePhoto] [] (.auth bob) 1
       = (⟨404, none⟩, []) ∧
     (PhotoViewSet.retrieve [privatePhoto] r1.2 (.auth bob) 1).1
       = ⟨200, some (.detail (photo_serialize privatePhoto))⟩) := by
  decide

/-- C2 fails on the code: after the admin force-deletes `alice`'s photo via
`flag_inappropriate`, the entity store no longer returns it, but
`_invalidate_all_caches` clears only `public_photos` and the anonymous list
pages — the `photo_detail_1` key cached before the delete survives, and a
subsequent anonymous retrieve is answered 200 from cache with the deleted
photo's payload. -/
theorem claim_C2_flag_delete_leaves_detail_cached :
    (let c1 := (PhotoViewSet.retrieve [privatePhoto] [] (.auth alice) 1).2
     let out := PhotoViewSet.flag_inappropriate [privatePhoto] c1
       (.auth adminUser) 1 true
     out.1 = ⟨200, none⟩ ∧
     out.2.1.find? (fun p => p.id == 1) = none ∧
     cacheGet out.2.2 (photo_detail_key 1)
       = some (.detail (photo_serialize privatePhoto)) ∧
     (PhotoViewSet.retrieve out.2.1 out.2.2 .anon 1).1
       = ⟨200, some (.detail (photo_serialize privatePhoto))⟩) := by
  decide

/-- C3 fails on the code as stated: `_invalidate_photo_caches` is keyed on
`request.user`, the acting user. When the admin (id 3) updates `alice`'s (id
1) photo, the operation returns 200 but `alice`'s own page-1 list key — whose
cached content contains the mutated photo — is not deleted. -/
theorem claim_C3_counterexample_owner_keys_survive :
    (let c0 : Cache CacheVal :=
       [(photos_list_user_key 1 1, .listing [photo_serialize privatePhoto])]
     let out := PhotoViewSet.update [privatePhoto] c0 adminUser 1
       "new title" "" "private"
     out.1 = ⟨200, none⟩ ∧
     cacheGet out.2.2 (photos_list_user_key 1 1)
       = some (.listing [photo_serialize privatePhoto])) := by
  decide

/-- C3 amended: each mutating photo/album operation synchronously deletes,
before its response is returned, the cache keys scoped to the *acting* user
and the anonymous/public scope for the bounded page window 1..10, together
with the mutated entity's detail keys — but not keys scoped to a different
user, such as the entity's owner when the actor is an admin. -/
theorem claim_C3_amended_acting_user_keys_cleared (c : Cache CacheVal)
    (uid pid aid page : Nat) (h1 : 1 ≤ page) (h2 : page ≤ 10) :
    cacheGet (invalidate_photo_caches c uid (some pid))
      (photos_list_user_key uid page) = none ∧
    cacheGet (invalidate_photo_caches c uid (some pid))
      (photos_list_anon_key page) = none ∧
    cacheGet (invalidate_photo_caches c uid (some pid))
      (photo_detail_key pid) = none ∧
    cacheGet (invalidate_photo_caches c uid (some pid))
      (my_photos_key uid) = none ∧
    cacheGet (invalidate_photo_caches c uid (some pid))
      public_photos_key = none ∧
    cacheGet (invalidate_album_caches c uid (some aid))
      (albums_list_user_key uid page) = none ∧
    cacheGet (invalidate_album_caches c uid (some aid))
      (album_detail_key aid uid) = none ∧
    cacheGet (invalidate_album_caches c uid (some aid))
      (album_photos_key aid uid) = none ∧
    cacheGet (invalidate_album_caches c uid (some aid))
      (my_albums_key uid) = none := by
  have hpage : page ∈ List.range' 1 10 :=
    List.mem_range'_1.mpr ⟨h1, by omega⟩
  refine ⟨?_, ?_, ?_, ?_, ?_, ?_, ?_, ?_, ?_⟩ <;>
    apply cacheGet_cacheDeleteMany_of_mem
  · exact List.mem_append_left _ (List.mem_append_left _
      (List.mem_flatMap.mpr ⟨page, hpage, List.mem_cons_self _ _⟩))
  · exact List.mem_append_left _ (List.mem_append_left _
      (List.mem_flatMap.mpr ⟨page, hpage,
        List.mem_cons_of_mem _ (List.mem_cons_self _ _)⟩))
  · exact List.mem_append_left _ (List.mem_append_right _
      (List.mem_cons_self _ _))
  · exact List.mem_append_right _ (List.mem_cons_self _ _)
  · exact List.mem_append_right _
      (List.mem_cons_of_mem _ (List.mem_cons_self _ _))
  · exact List.mem_append_left _ (List.mem_append_left _
      (List.mem_map_of_mem _ hpage))
  · exact List.mem_append_left _ (List.mem_append_right _
      (List.mem_cons_self _ _))
  · exact List.mem_append_left _ (List.mem_append_right _
      (List.mem_cons_of_mem _ (List.mem_cons_self _ _)))
  · exact List.mem_append_right _ (List.mem_cons_self _ _)

/-- Witness for the amended C3 at a concrete cache, user, entity ids and
page 3. -/
theorem claim_C3_amended_witness :
    cacheGet (invalidate_photo_caches
        [(photos_list_user_key 5 3, CacheVal.listing [])] 5 (some 7))
      (photos_list_user_key 5 3) = none ∧
    cacheGet (invalidate_photo_caches
        [(photos_list_user_key 5 3, CacheVal.listing [])] 5 (some 7))
      (photos_list_anon_key 3) = none ∧
    cacheGet (invalidate_photo_caches
        [(photos_list_user_key 5 3, CacheVal.listing [])] 5 (some 7))
      (photo_detail_key 7) = none ∧
    cacheGet (invalidate_photo_caches
        [(photos_list_user_key 5 3, CacheVal.listing [])] 5 (some 7))
      (my_photos_key 5) = none ∧
    cacheGet (invalidate_photo_caches
        [(photos_list_user_key 5 3, CacheVal.listing [])] 5 (some 7))
      public_photos_key = none ∧
    cacheGet (invalidate_album_caches
        [(photos_list_user_key 5 3, CacheVal.listing [])] 5 (some 9))
      (albums_list_user_key 5 3) = none ∧
    cacheGet (invalidate_album_caches
        [(photos_list_user_key 5 3, CacheVal.listing [])] 5 (some 9))
      (album_detail_key 9 5) = none ∧
    cacheGet (invalidate_album_caches
        [(photos_list_user_key 5 3, CacheVal.listing [])] 5 (some 9))
      (album_photos_key 9 5) = none ∧
    cacheGet (invalidate_album_caches
        [(photos_list_user_key 5 3, CacheVal.listing [])] 5 (some 9))
      (my_albums_key 5) = none :=
  claim_C3_amended_acting_user_keys_cleared
    [(photos_list_user_key 5 3, CacheVal.listing [])] 5 7 9 3
    (by decide) (by decide)

/-- C5 fails on the code: `Album.get_visible_photos` filters non-owners to
`visibility == "public"` only, never consulting the Photo rule. The admin can
read `alice`'s private photo (`can_read` true), yet the visible-photos set of
her album is empty for the admin, while the set of contained photos readable
by the admin is the whole album. -/
theorem claim_C5_counterexample_admin_hidden_private :
    can_read (.auth adminUser) privatePhoto = true ∧
    Album.get_visible_photos alicesAlbum (.auth adminUser) = [] ∧
    alicesAlbum.photos.filter (fun p => can_read (.auth adminUser) p)
      = [privatePhoto] := by
  decide

/-- C5 amended: the visible photos of an album are all its photos when the
requesting actor is the authenticated album owner, and otherwise exactly the
contained photos whose own visibility is public — every photo shown to a
non-owner is readable by that actor under the Photo rule, but a readable
private photo (e.g. for an admin) is not shown. -/
theorem claim_C5_amended_visible_photos (alb : Album) (actor : Actor)
    (p : Photo) (hnotown : ∀ u : CustomUser, actor = .auth u → alb.owner ≠ u.id) :
    (p ∈ Album.get_visible_photos alb actor ↔
      p ∈ alb.photos ∧ p.visibility = "public") ∧
    (p ∈ Album.get_visible_photos alb actor → can_read actor p = true) ∧
    (∀ u : CustomUser, alb.owner = u.id →
      Album.get_visible_photos alb (.auth u) = alb.photos) := by
  have hmem : p ∈ Album.get_visible_photos alb actor ↔
      p ∈ alb.photos ∧ p.visibility = "public" := by
    cases actor with
    | anon =>
      simp [Album.get_visible_photos, List.mem_filter]
    | auth u =>
      have h' : (alb.owner == u.id) = false :=
        beq_eq_false_iff_ne.mpr (hnotown u rfl)
      simp [Album.get_visible_photos, h', List.mem_filter]
  refine ⟨hmem, ?_, ?_⟩
  · intro hp
    have hvis : p.visibility = "public" := (hmem.mp hp).2
    cases actor with
    | anon => simp [can_read, has_object_permission, hvis]
    | auth u => simp [can_read, has_object_permission, hvis]
  · intro u hu
    simp [Album.get_visible_photos, hu]

/-- Witness for the amended C5: `bob` requesting `alice`'s album. -/
theorem claim_C5_amended_visible_photos_witness :
    (privatePhoto ∈ Album.get_visible_photos alicesAlbum (.auth bob) ↔
      privatePhoto ∈ alicesAlbum.photos ∧ privatePhoto.visibility = "public") ∧
    (privatePhoto ∈ Album.get_visible_photos alicesAlbum (.auth bob) →
      can_read (.auth bob) privatePhoto = true) ∧
    (∀ u : CustomUser, alicesAlbum.owner = u.id →
      Album.get_visible_photos alicesAlbum (.auth u) = alicesAlbum.photos) :=
  claim_C5_amended_visible_photos alicesAlbum (.auth bob) privatePhoto
    (by intro u h; injection h with h'; subst h'; decide)

/-- C8: in both photo-delete workflows — owner/admin `destroy` and admin
`flag_inappropriate` — a `StorageException` from the S3 delete does not abort:
the photo record is still removed from the entity store, the caches are
invalidated, and the response is a successful 200 carrying the storage
failure as a warning. -/
theorem claim_C8_storage_failure_nonfatal (db : List Photo)
    (c : Cache CacheVal) (u : CustomUser) (actor : Actor) (pid : Nat)
    (photo : Photo) :
    (photo_get_object db false (.auth u) pid = some photo →
      PhotoViewSet.destroy db c u pid false
        = (⟨200, some "S3 deletion failed"⟩,
           db.filter (fun p => p.id != photo.id),
           invalidate_photo_caches c u.id (some photo.id)) ∧
      (db.filter (fun p => p.id != photo.id)).find?
        (fun p => p.id == photo.id) = none) ∧
    (IsAdmin_permission actor = true →
      (db.find? (fun p => p.id == pid)).bind (fun p =>
        if photo_in_queryset actor p then some p else none) = some photo →
      PhotoViewSet.flag_inappropriate db c actor pid false
        = (⟨200, some "S3 deletion failed"⟩,
           db.filter (fun p => p.id != photo.id),
           invalidate_all_caches c)) := by
  constructor
  · intro hget
    constructor
    · unfold PhotoViewSet.destroy
      rw [hget]
      rfl
    · apply List.find?_eq_none.mpr
      intro x hx
      have hne : x.id ≠ photo.id := by
        simpa [bne] using (List.mem_filter.mp hx).2
      simp [hne]
  · intro hadm hfind
    unfold PhotoViewSet.flag_inappropriate
    rw [hadm, hfind]
    rfl

/-- Witness for C8: deleting `alice`'s only photo with the S3 delete failing,
through both workflows. -/
theorem claim_C8_storage_failure_nonfatal_witness :
    (PhotoViewSet.destroy [privatePhoto] [] alice 1 false
      = (⟨200, some "S3 deletion failed"⟩,
         [privatePhoto].filter (fun p => p.id != privatePhoto.id),
         invalidate_photo_caches [] alice.id (some privatePhoto.id)) ∧
     ([privatePhoto].filter (fun p => p.id != privatePhoto.id)).find?
        (fun p => p.id == privatePhoto.id) = none) ∧
    PhotoViewSet.flag_inappropriate [privatePhoto] [] (.auth adminUser) 1 false
      = (⟨200, some "S3 deletion failed"⟩,
         [privatePhoto].filter (fun p => p.id != privatePhoto.id),
         invalidate_all_caches []) := by
  have h := claim_C8_storage_failure_nonfatal [privatePhoto] [] alice
    (.auth adminUser) 1 privatePhoto
  exact ⟨h.1 (by decide), h.2 (by decide) (by decide)⟩

/-- An empty album owned by `alice`, used by the C9 witness. -/
def emptyAlbum : Album := ⟨1, "holiday", "", 1, []⟩

/-- C9: with album and photo both owned by the acting user and the photo not
yet a member: the first add succeeds and creates exactly one membership link;
a second add is rejected as already-present with the state unchanged; a
remove then succeeds and restores the original album; and a second remove is
rejected as not-present, again changing nothing. -/
theorem claim_C9_membership_roundtrip (u : CustomUser) (alb : Album)
    (P : Photo) (c : Cache CacheVal)
    (hown : alb.owner = u.id) (hPown : P.owner = u.id)
    (hnotin : alb.photos.any (fun p => p.id == P.id) = false) :
    (AlbumViewSet.add_photo [alb] [P] c u alb.id P.id
      = (.ok alb.id P.id, [{ alb with photos := alb.photos ++ [P] }],
         invalidate_album_caches c u.id (some alb.id))) ∧
    (({ alb with photos := alb.photos ++ [P] } : Album).photos.filter
        (fun p => p.id == P.id)).length = 1 ∧
    (AlbumViewSet.add_photo [{ alb with photos := alb.photos ++ [P] }] [P]
        (invalidate_album_caches c u.id (some alb.id)) u alb.id P.id
      = (.already_in_album, [{ alb with photos := alb.photos ++ [P] }],
         invalidate_album_caches c u.id (some alb.id))) ∧
    (AlbumViewSet.remove_photo [{ alb with photos := alb.photos ++ [P] }] [P]
        (invalidate_album_caches c u.id (some alb.id)) u alb.id P.id
      = (.ok alb.id P.id, [alb],
         invalidate_album_caches (invalidate_album_caches c u.id (some alb.id))
           u.id (some alb.id))) ∧
    (AlbumViewSet.remove_photo [alb] [P]
        (invalidate_album_caches (invalidate_album_caches c u.id (some alb.id))
          u.id (some alb.id)) u alb.id P.id
      = (.not_in_album, [alb],
         invalidate_album_caches (invalidate_album_caches c u.id (some alb.id))
           u.id (some alb.id))) := by
  have hqa : ∀ a : Album, a.owner = u.id → album_in_queryset u a = true := by
    intro a ha
    unfold album_in_queryset
    rw [ha]
    simp
  have hio : ∀ a : Album, a.owner = u.id → IsAlbumOwner_object u a = true := by
    intro a ha
    unfold IsAlbumOwner_object
    rw [ha]
    simp
  have hget : ∀ a : Album, a.id = alb.id → a.owner = u.id →
      album_get_object [a] u alb.id = some a := by
    intro a hid ha
    unfold album_get_object
    rw [List.find?_cons_of_pos _ (by simp [hid])]
    simp [hqa a ha, hio a ha]
  have hfindP : List.find? (fun p => p.id == P.id) [P] = some P :=
    List.find?_cons_of_pos _ (by simp)
  have hPmem : ((alb.photos ++ [P]).any (fun p => p.id == P.id)) = true := by
    simp
  have hfilterP : alb.photos.filter (fun p => p.id == P.id) = [] := by
    apply List.filter_eq_nil_iff.mpr
    intro a ha
    exact fun hb => (List.any_eq_false.mp hnotin a ha) hb
  have hfilterKeep : alb.photos.filter (fun p => p.id != P.id) = alb.photos := by
    apply List.filter_eq_self.mpr
    intro a ha
    have h := List.any_eq_false.mp hnotin a ha
    cases hb : (a.id == P.id) with
    | true => exact absurd hb h
    | false => simp [bne, hb]
  refine ⟨?_, ?_, ?_, ?_, ?_⟩
  · unfold AlbumViewSet.add_photo
    rw [hget alb rfl hown, hfindP]
    simp [hPown, hnotin]
  · simp [List.filter_append, hfilterP]
  · unfold AlbumViewSet.add_photo
    rw [hget { alb with photos := alb.photos ++ [P] } rfl hown, hfindP]
    simp [hPown, hPmem]
  · unfold AlbumViewSet.remove_photo
    rw [hget { alb with photos := alb.photos ++ [P] } rfl hown, hfindP]
    simp [hPmem, List.filter_append, hfilterKeep]
  · unfold AlbumViewSet.remove_photo
    rw [hget alb rfl hown, hfindP]
    simp [hnotin]

/-- Witness for C9: `alice` adding and removing her photo on her empty
album. -/
theorem claim_C9_membership_roundtrip_witness :
    (AlbumViewSet.add_photo [emptyAlbum] [privatePhoto] [] alice emptyAlbum.id
        privatePhoto.id
      = (.ok emptyAlbum.id privatePhoto.id,
         [{ emptyAlbum with photos := emptyAlbum.photos ++ [privatePhoto] }],
         invalidate_album_caches [] alice.id (some emptyAlbum.id))) ∧
    (({ emptyAlbum with photos := emptyAlbum.photos ++ [privatePhoto] } :
        Album).photos.filter (fun p => p.id == privatePhoto.id)).length = 1 ∧
    (AlbumViewSet.add_photo
        [{ emptyAlbum with photos := emptyAlbum.photos ++ [privatePhoto] }]
        [privatePhoto] (invalidate_album_caches [] alice.id (some emptyAlbum.id))
        alice emptyAlbum.id privatePhoto.id
      = (.already_in_album,
         [{ emptyAlbum with photos := emptyAlbum.photos ++ [privatePhoto] }],
         invalidate_album_caches [] alice.id (some emptyAlbum.id))) ∧
    (AlbumViewSet.remove_photo
        [{ emptyAlbum with photos := emptyAlbum.photos ++ [privatePhoto] }]
        [privatePhoto] (invalidate_album_caches [] alice.id (some emptyAlbum.id))
        alice emptyAlbum.id privatePhoto.id
      = (.ok emptyAlbum.id privatePhoto.id, [emptyAlbum],
         invalidate_album_caches
           (invalidate_album_caches [] alice.id (some emptyAlbum.id))
           alice.id (some emptyAlbum.id))) ∧
    (AlbumViewSet.remove_photo [emptyAlbum] [privatePhoto]
        (invalidate_album_caches
          (invalidate_album_caches [] alice.id (some emptyAlbum.id))
          alice.id (some emptyAlbum.id)) alice emptyAlbum.id privatePhoto.id
      = (.not_in_album, [emptyAlbum],
         invalidate_album_caches
           (invalidate_album_caches [] alice.id (some emptyAlbum.id))
           alice.id (some emptyAlbum.id))) :=
  claim_C9_membership_roundtrip alice emptyAlbum privatePhoto []
    (by decide) (by decide) (by decide)

end PhotoVault
